import Mathlib

/-!
Verification development for the planner repository: hierarchical goal
tracking with progress propagation (GoalService, part_006), dashboard
aggregation (DashboardService, part_007), event CRUD (EventService,
part_008) and the SQL trigger functions of
supabase/migrations/003_create_profiles_table.sql.

Shallow embedding conventions:
 - progress values are rationals (JS numbers used for percentages);
 - timestamps are integers (milliseconds since epoch, as in JS Date);
 - the per-user row stores are plain lists (queries are already scoped
   to one user by row-level security, so a store is one user's rows);
 - fallible service methods return Except String;
 - recursion over the goal hierarchy takes an explicit fuel argument,
   and termination with sufficient fuel is proved from the level
   invariant.
-/

/-- Goal status enum, from the goals table CHECK constraint and
`GoalStatus` in types/goals.ts. -/
inductive GoalStatus where
  | active
  | completed
  | paused
  | cancelled
deriving DecidableEq, Repr

/-- A goal row, from the `goals` table and the `Goal` interface in
types/goals.ts (fields not used by any claim are omitted). -/
structure Goal where
  id : Nat
  title : String
  parentId : Option Nat
  level : Nat
  progress : ℚ
  status : GoalStatus
  dueDate : Option ℤ
  completedAt : Option ℤ
  categoryId : Option Nat
deriving DecidableEq, Repr

/-- JS `Math.round`: round half toward positive infinity. -/
def jsRound (q : ℚ) : ℤ := ⌊q + 1 / 2⌋

/-- `Math.round(x * 100) / 100` — round to 2 decimal places, from
GoalService.calculateParentProgress. -/
def round2 (q : ℚ) : ℚ := (jsRound (q * 100) : ℚ) / 100

/-- Sum of the progress fields, as the `reduce((sum, child) => sum +
child.progress, 0)` in GoalService.calculateParentProgress. -/
def sumProgress (l : List Goal) : ℚ := l.foldl (fun s g => s + g.progress) 0

/-- `GoalService.getGoal`: fetch a row by id. -/
def getGoal (store : List Goal) (gid : Nat) : Option Goal :=
  store.find? fun g => decide (g.id = gid)

/-- `GoalService.getGoalChildren` / `getGoals({parentId})`: the direct
children of a goal. -/
def getGoalChildren (store : List Goal) (parentId : Nat) : List Goal :=
  store.filter fun g => decide (g.parentId = some parentId)

/-- `GoalService.calculateParentProgress` (part_006 lines 323-343):
average the progress of the `active`/`completed` children, rounded to
2 decimal places; 0 when there is no eligible child. -/
def calculateParentProgress (store : List Goal) (parentId : Nat) : ℚ :=
  let children := getGoalChildren store parentId
  if children.isEmpty then 0
  else
    let relevantChildren := children.filter fun c =>
      decide (c.status = GoalStatus.active ∨ c.status = GoalStatus.completed)
    if relevantChildren.isEmpty then 0
    else round2 (sumProgress relevantChildren / (relevantChildren.length : ℚ))

/-- The SQL function `calculate_parent_goal_progress` (003_*.sql lines
264-276): `AVG(progress)` over the children with `status = 'active'`
only, `COALESCE`d to 0. -/
def calculate_parent_goal_progress (store : List Goal) (parentGoalId : Nat) : ℚ :=
  let rows := store.filter fun g =>
    decide (g.parentId = some parentGoalId ∧ g.status = GoalStatus.active)
  if rows.isEmpty then 0
  else sumProgress rows / (rows.length : ℚ)

/-- The row-level effect of `GoalService.updateGoal` (part_006 lines
175-215) restricted to the progress/status fields the propagation code
passes: clamp progress into 0..100, apply the given fields, and
auto-complete (status `completed` plus `completed_at := now`) exactly
when the update carries progress 100 and does not itself carry status
`completed`. -/
def updateGoalRow (g : Goal) (progressInput : Option ℚ)
    (statusInput : Option GoalStatus) (now : ℤ) : Goal :=
  let clamped := progressInput.map fun p => min 100 (max 0 p)
  if clamped = some 100 ∧ statusInput ≠ some GoalStatus.completed then
    { g with progress := 100, status := GoalStatus.completed, completedAt := some now }
  else
    { g with progress := clamped.getD g.progress, status := statusInput.getD g.status }

/-- `GoalService.updateProgress` (part_006 lines 280-286): update a
goal's progress, passing status `completed` when the raw input equals
100 and `active` otherwise. -/
def updateProgress (g : Goal) (progress : ℚ) (now : ℤ) : Goal :=
  updateGoalRow g (some progress)
    (some (if progress = 100 then GoalStatus.completed else GoalStatus.active)) now

/-- The UPDATE performed on the parent row by the SQL trigger function
`update_parent_goal_progress` (003_*.sql lines 279-309), given the
recomputed progress `parentProgress`. -/
def update_parent_goal_progress (parent : Goal) (parentProgress : ℚ) (now : ℤ) : Goal :=
  { parent with
    progress := parentProgress
    status :=
      if parentProgress = 100 then GoalStatus.completed
      else if parent.status = GoalStatus.completed ∧ parentProgress < 100 then
        GoalStatus.active
      else parent.status
    completedAt :=
      if parentProgress = 100 ∧ parent.completedAt = none then some now
      else if parentProgress < 100 then none
      else parent.completedAt }

/-- The SQL trigger `update_user_stats` (003_*.sql lines 115-167) needs
the profile stats snapshot shape. -/
structure Stats where
  totalGoals : ℤ
  completedGoals : ℤ
  totalEvents : ℤ
  completedEvents : ℤ
  currentStreak : ℤ
  longestStreak : ℤ
deriving DecidableEq, Repr

/-- An event row, from the `events` table and the `Event` interface in
types/calendar.ts. -/
structure Event where
  id : Nat
  title : String
  description : Option String
  startDate : ℤ
  endDate : ℤ
  allDay : Bool
  categoryId : Option Nat
  tags : List String
  color : Option String
deriving DecidableEq, Repr

/-- The SQL trigger function `update_user_stats`, applied to one user's
goals and events and that user's current stats row: it counts goals,
completed goals and events, and rebuilds the stats object, taking
`completedEvents`, `currentStreak` and `longestStreak` from the
existing stats JSON rather than recomputing them. -/
def update_user_stats (goals : List Goal) (events : List Event) (old : Stats) : Stats :=
  { totalGoals := (goals.length : ℤ)
    completedGoals := ((goals.filter fun g => decide (g.status = GoalStatus.completed)).length : ℤ)
    totalEvents := (events.length : ℤ)
    completedEvents := old.completedEvents
    currentStreak := old.currentStreak
    longestStreak := old.longestStreak }

/-- Spec-side definition (for comparison with the source): the children
of `parentId` whose status is `active` or `completed`. -/
def eligibleChildren (store : List Goal) (parentId : Nat) : List Goal :=
  store.filter fun g =>
    decide (g.parentId = some parentId ∧
      (g.status = GoalStatus.active ∨ g.status = GoalStatus.completed))

/-- Spec-side definition (for comparison with the source): the children
of `parentId` whose status is `active`. -/
def activeChildren (store : List Goal) (parentId : Nat) : List Goal :=
  store.filter fun g =>
    decide (g.parentId = some parentId ∧ g.status = GoalStatus.active)

/-- Spec-side definition: the arithmetic mean of the progress values. -/
def meanProgress (l : List Goal) : ℚ := sumProgress l / (l.length : ℚ)

/-- Store-level effect of `GoalService.updateGoal`: replace the row
with the given id by its updated version. -/
def updateGoalInStore (store : List Goal) (gid : Nat) (progressInput : Option ℚ)
    (statusInput : Option GoalStatus) (now : ℤ) : List Goal :=
  store.map fun g => if g.id = gid then updateGoalRow g progressInput statusInput now else g

/-- The status the propagation chain passes to `updateGoal`
(part_006 lines 362-364). -/
def chainStatus (parent : Goal) (newParentProgress : ℚ) : GoalStatus :=
  if newParentProgress = 100 then GoalStatus.completed
  else if parent.status = GoalStatus.completed ∧ newParentProgress < 100 then GoalStatus.active
  else parent.status

/-- `GoalService.updateParentProgressChain` (part_006 lines 348-376).
The recursion climbs the parent chain, so an explicit fuel bounds it;
`none` means the fuel ran out or a referenced goal is missing (the
service would have thrown on the latter). -/
def updateParentProgressChain (now : ℤ) : Nat → List Goal → Nat → Option (List Goal)
  | 0, _, _ => none
  | fuel + 1, store, goalId =>
    match getGoal store goalId with
    | none => none
    | some goal =>
      match goal.parentId with
      | none => some store
      | some parentId =>
        let newParentProgress := calculateParentProgress store parentId
        match getGoal store parentId with
        | none => none
        | some parent =>
          if |parent.progress - newParentProgress| > 1 / 100 then
            updateParentProgressChain now fuel
              (updateGoalInStore store parentId (some newParentProgress)
                (some (chainStatus parent newParentProgress)) now)
              parentId
          else some store

/-- The ids of the ancestors of a goal, innermost first, following the
parent pointers (bounded by fuel, in step with the chain above). -/
def ancestorIds (store : List Goal) : Nat → Nat → List Nat
  | 0, _ => []
  | fuel + 1, gid =>
    match getGoal store gid with
    | none => []
    | some g =>
      match g.parentId with
      | none => []
      | some parentId => parentId :: ancestorIds store fuel parentId

/-- The stored goal ids are pairwise distinct. -/
def idsNodup (store : List Goal) : Prop := (store.map Goal.id).Nodup

/-- Every stored goal has level at least 1 (the goals table CHECK
constraint `level >= 1`). -/
def levelsPos (store : List Goal) : Prop := ∀ g ∈ store, 1 ≤ g.level

/-- Every stored goal with a parent points at a stored goal whose level
is one smaller. -/
def parentWellFormed (store : List Goal) : Prop :=
  ∀ g ∈ store, ∀ pid, g.parentId = some pid →
    ∃ p ∈ store, p.id = pid ∧ p.level + 1 = g.level

/-- The level invariant of the spec: roots have level 1, a child's
level is its parent's level plus 1, and no level exceeds 4. -/
def levelInvariant (store : List Goal) : Prop :=
  ∀ g ∈ store,
    g.level ≤ 4 ∧
    (g.parentId = none → g.level = 1) ∧
    ∀ pid ∈ g.parentId.toList, ∃ p ∈ store, p.id = pid ∧ g.level = p.level + 1

instance levelInvariantDecidable (store : List Goal) : Decidable (levelInvariant store) := by
  unfold levelInvariant
  infer_instance

/-- Set the level of one row (the UPDATE in
`GoalService.updateDescendantLevels`). -/
def setLevel (store : List Goal) (gid : Nat) (newLevel : Nat) : List Goal :=
  store.map fun h => if h.id = gid then { h with level := newLevel } else h

/-- `GoalService.updateDescendantLevels` (part_006 lines 439-454):
walk the children of `goalId`; a child whose new level would stay
within 4 is updated and recursed into, otherwise it is skipped
(fuel bounds the tree depth). -/
def updateDescendantLevels : Nat → List Goal → Nat → Nat → List Goal
  | 0, store, _, _ => store
  | fuel + 1, store, goalId, parentLevel =>
    let children := getGoalChildren store goalId
    children.foldl
      (fun st child =>
        if parentLevel + 1 ≤ 4 then
          updateDescendantLevels fuel (setLevel st child.id (parentLevel + 1))
            child.id (parentLevel + 1)
        else st)
      store

/-- `GoalService.moveGoal` (part_006 lines 235-275): reparent a goal,
recomputing its level from the new parent, then fix descendant levels
with `updateDescendantLevels`. -/
def moveGoal (fuel : Nat) (store : List Goal) (goalId : Nat)
    (newParentId : Option Nat) : Except String (List Goal) :=
  match getGoal store goalId with
  | none => Except.error "Goal not found"
  | some _ =>
    let newLevelE : Except String Nat :=
      match newParentId with
      | none => Except.ok 1
      | some pid =>
        match getGoal store pid with
        | none => Except.error "Goal not found"
        | some newParent =>
          if 4 ≤ newParent.level then Except.error "Cannot move goal to level 4 parent"
          else Except.ok (newParent.level + 1)
    match newLevelE with
    | Except.error e => Except.error e
    | Except.ok newLevel =>
      if 4 < newLevel then Except.error "Cannot create goals deeper than level 4"
      else
        let store1 := store.map fun h =>
          if h.id = goalId then { h with parentId := newParentId, level := newLevel } else h
        Except.ok (updateDescendantLevels fuel store1 goalId newLevel)

/-- The caller-supplied part of `CreateGoalInput` (types/goals.ts)
used by `GoalService.createGoal`. -/
structure CreateGoalInput where
  title : String
  parentId : Option Nat := none
  level : Nat
  dueDate : Option ℤ := none
  categoryId : Option Nat := none
deriving DecidableEq, Repr

/-- The row `GoalService.createGoal` inserts (progress and status take
the goals table defaults 0 and `active`). -/
def mkGoal (newId : Nat) (input : CreateGoalInput) : Goal :=
  { id := newId
    title := input.title
    parentId := input.parentId
    level := input.level
    progress := 0
    status := GoalStatus.active
    dueDate := input.dueDate
    completedAt := none
    categoryId := input.categoryId }

/-- `GoalService.createGoal` (part_006 lines 125-170) for a user whose
authentication state is `authenticated`: validate the hierarchy rule,
then insert. -/
def createGoal (store : List Goal) (authenticated : Bool) (newId : Nat)
    (input : CreateGoalInput) : Except String (List Goal) :=
  if authenticated = false then Except.error "User not authenticated"
  else
    match input.parentId with
    | some pid =>
      match getGoal store pid with
      | none => Except.error "Goal not found"
      | some parent =>
        if 4 ≤ parent.level then Except.error "Cannot add children to level 4 goals"
        else if input.level ≠ parent.level + 1 then
          Except.error "Child level must be exactly one greater than parent level"
        else Except.ok (store ++ [mkGoal newId input])
    | none =>
      if input.level ≠ 1 then Except.error "Root goals must be level 1"
      else Except.ok (store ++ [mkGoal newId input])

/-- The hierarchy rule of the claim: with a parent, the parent's level
is 4 or more or the requested level is not parent level plus 1; with no
parent, the requested level is not 1. -/
def hierarchyViolation (store : List Goal) (input : CreateGoalInput) : Prop :=
  match input.parentId with
  | some pid => ∃ parent, getGoal store pid = some parent ∧
      (4 ≤ parent.level ∨ input.level ≠ parent.level + 1)
  | none => input.level ≠ 1

/-- Milliseconds per day, the unit conversions date-fns uses. -/
def msPerDay : ℤ := 86400000

/-- date-fns `differenceInDays`: full days between two instants,
truncated toward zero. -/
def differenceInDays (a b : ℤ) : ℤ := Int.tdiv (a - b) msPerDay

/-- date-fns `isToday`, modeled as equality of calendar-day indices. -/
def isTodayTs (t now : ℤ) : Prop := Int.ediv t msPerDay = Int.ediv now msPerDay

instance (t now : ℤ) : Decidable (isTodayTs t now) := by
  unfold isTodayTs
  infer_instance

/-- The minute-of-day shown by date-fns `format(date, 'HH:mm')`,
as a number so that string comparison of zero-padded times is numeric
comparison. -/
def minuteOfDay (t : ℤ) : ℤ := Int.ediv (Int.emod t msPerDay) 60000

/-- Urgency buckets from types/dashboard.ts. -/
inductive Urgency where
  | low
  | medium
  | high
  | critical
deriving DecidableEq, Repr

/-- `calculateUrgency` (types/dashboard.ts lines 138-143). -/
def calculateUrgency (daysOverdue : ℤ) : Urgency :=
  if 7 ≤ daysOverdue then Urgency.critical
  else if 3 ≤ daysOverdue then Urgency.high
  else if 1 ≤ daysOverdue then Urgency.medium
  else Urgency.low

/-- Whether a dashboard item came from a goal or from an event. -/
inductive ItemType where
  | goal
  | event
deriving DecidableEq, Repr

/-- An entry of the dashboard overdue list (types/dashboard.ts,
`OverdueItem`), restricted to the fields the claims speak about. -/
structure OverdueItem where
  id : Nat
  title : String
  type : ItemType
  dueDate : ℤ
  daysOverdue : ℤ
  urgency : Urgency
  progress : Option ℚ
deriving DecidableEq, Repr

/-- `DashboardService.isOverdue` on a goal: past the due date and not
completed (date-fns `isPast` is strict comparison with now). -/
def isOverdueGoal (now : ℤ) (g : Goal) : Bool :=
  match g.dueDate with
  | none => false
  | some due => decide (due < now ∧ g.status ≠ GoalStatus.completed)

/-- `DashboardService.isOverdue` on an event: past the end date. -/
def isOverdueEvent (now : ℤ) (e : Event) : Bool := decide (e.endDate < now)

/-- The overdue-list entry built from a goal
(part_007 lines 311-329). -/
def mkOverdueGoalItem (now : ℤ) (g : Goal) : OverdueItem :=
  let daysOverdue := match g.dueDate with
    | some due => differenceInDays now due
    | none => 0
  { id := g.id
    title := g.title
    type := ItemType.goal
    dueDate := g.dueDate.getD 0
    daysOverdue := daysOverdue
    urgency := calculateUrgency daysOverdue
    progress := some g.progress }

/-- The overdue-list entry built from an event
(part_007 lines 333-349). -/
def mkOverdueEventItem (now : ℤ) (e : Event) : OverdueItem :=
  let daysOverdue := differenceInDays now e.endDate
  { id := e.id
    title := e.title
    type := ItemType.event
    dueDate := e.endDate
    daysOverdue := daysOverdue
    urgency := calculateUrgency daysOverdue
    progress := none }

/-- The numeric rank the overdue comparator assigns to each urgency
(part_007 line 353). -/
def urgencyOrder : Urgency → ℤ
  | Urgency.critical => 4
  | Urgency.high => 3
  | Urgency.medium => 2
  | Urgency.low => 1

/-- The overdue comparator as an ordering test: `a` may come before `b`
when the JS comparator returns a non-positive number, i.e. urgency rank
descending, then days overdue descending. -/
def overdueLE (a b : OverdueItem) : Bool :=
  decide (urgencyOrder b.urgency < urgencyOrder a.urgency) ||
    (decide (urgencyOrder a.urgency = urgencyOrder b.urgency) &&
      decide (b.daysOverdue ≤ a.daysOverdue))

/-- `DashboardService.getOverdueItems` (part_007 lines 306-358):
overdue goals then overdue events, sorted by the comparator. -/
def getOverdueItems (goals : List Goal) (events : List Event) (now : ℤ) : List OverdueItem :=
  ((goals.filter (isOverdueGoal now)).map (mkOverdueGoalItem now) ++
    (events.filter (isOverdueEvent now)).map (mkOverdueEventItem now)).mergeSort overdueLE

/-- `DashboardService.isDueToday` on a goal. -/
def isDueToday (now : ℤ) (g : Goal) : Bool :=
  match g.dueDate with
  | none => false
  | some due => decide (isTodayTs due now)

/-- `DashboardService.calculateGoalPriority` (part_007 lines 499-515). -/
def calculateGoalPriority (now : ℤ) (g : Goal) : ℚ :=
  let p1 : ℚ := 5 + (g.level : ℚ)
  let p2 := if isDueToday now g then p1 + 2 else p1
  let p3 := if 80 < g.progress then p2 + 2 else if 60 < g.progress then p2 + 1 else p2
  min 10 (max 1 p3)

/-- `DashboardService.calculateEventPriority` (part_007 lines 517-532). -/
def calculateEventPriority (now : ℤ) (e : Event) : ℚ :=
  let hoursUntilStart : ℚ := ((e.startDate - now : ℤ) : ℚ) / 3600000
  let p1 : ℚ := 5
  let p2 :=
    if hoursUntilStart ≤ 1 then p1 + 3
    else if hoursUntilStart ≤ 3 then p1 + 2
    else if hoursUntilStart ≤ 6 then p1 + 1
    else p1
  let p3 := if e.allDay then p2 - 1 else p2
  min 10 (max 1 p3)

/-- An entry of the dashboard today list (types/dashboard.ts,
`TodayTask`), restricted to the fields the claims speak about. -/
structure TodayTask where
  id : Nat
  title : String
  type : ItemType
  priority : ℚ
  completed : Bool
  dueTime : Option ℤ
  progress : Option ℚ
deriving DecidableEq, Repr

/-- The today-list entry built from a goal (part_007 lines 256-271). -/
def mkGoalTask (now : ℤ) (g : Goal) : TodayTask :=
  { id := g.id
    title := g.title
    type := ItemType.goal
    priority := calculateGoalPriority now g
    completed := decide (g.status = GoalStatus.completed)
    dueTime := none
    progress := some g.progress }

/-- The today-list entry built from an event
(part_007 lines 276-291). -/
def mkEventTask (now : ℤ) (e : Event) : TodayTask :=
  { id := e.id
    title := e.title
    type := ItemType.event
    priority := calculateEventPriority now e
    completed := decide (e.endDate < now)
    dueTime := if e.allDay then none else some (minuteOfDay e.startDate)
    progress := none }

/-- Due-time tie break of the today comparator: items with a time come
first, ordered by the time. -/
def dueTimeLE : Option ℤ → Option ℤ → Bool
  | some x, some y => decide (x ≤ y)
  | some _, none => true
  | none, some _ => false
  | none, none => true

/-- The today comparator as an ordering test: priority descending,
then due time. -/
def todayLE (a b : TodayTask) : Bool :=
  decide (b.priority < a.priority) ||
    (decide (a.priority = b.priority) && dueTimeLE a.dueTime b.dueTime)

/-- `DashboardService.getTodayTasks` (part_007 lines 246-301): active
level-4 goals that are due today or have no due date, plus events
starting today, sorted by the comparator. -/
def getTodayTasks (goals : List Goal) (events : List Event) (now : ℤ) : List TodayTask :=
  ((goals.filter fun g =>
      decide (g.level = 4 ∧ g.status = GoalStatus.active ∧
        (isDueToday now g = true ∨ g.dueDate = none))).map (mkGoalTask now) ++
    (events.filter fun e => decide (isTodayTs e.startDate now)).map (mkEventTask now)).mergeSort todayLE

/-- `CreateEventInput` (types/calendar.ts). -/
structure CreateEventInput where
  title : String
  description : Option String := none
  startDate : ℤ
  endDate : ℤ
  allDay : Option Bool := none
  categoryId : Option Nat := none
  tags : Option (List String) := none
  color : Option String := none
deriving DecidableEq, Repr

/-- The row `EventService.createEvent` (part_008 lines 73-106) inserts:
`all_day` defaults to false, `tags` to the empty list. -/
def createEvent (newId : Nat) (input : CreateEventInput) : Event :=
  { id := newId
    title := input.title
    description := input.description
    startDate := input.startDate
    endDate := input.endDate
    allDay := input.allDay.getD false
    categoryId := input.categoryId
    tags := input.tags.getD []
    color := input.color }

/-- `UpdateEventInput` (types/calendar.ts): every field optional;
`none` models an absent (undefined) field. -/
structure UpdateEventInput where
  title : Option String := none
  description : Option (Option String) := none
  startDate : Option ℤ := none
  endDate : Option ℤ := none
  allDay : Option Bool := none
  categoryId : Option (Option Nat) := none
  tags : Option (List String) := none
  color : Option (Option String) := none
deriving DecidableEq, Repr

/-- The row-level effect of `EventService.updateEvent` (part_008 lines
111-140): each field present in the input replaces the stored one. -/
def applyEventUpdate (e : Event) (u : UpdateEventInput) : Event :=
  { e with
    title := u.title.getD e.title
    description := u.description.getD e.description
    startDate := u.startDate.getD e.startDate
    endDate := u.endDate.getD e.endDate
    allDay := u.allDay.getD e.allDay
    categoryId := u.categoryId.getD e.categoryId
    tags := u.tags.getD e.tags
    color := u.color.getD e.color }

/-- `EventService.updateEvent` as seen by the caller: find the row,
apply the update, return the resulting event. -/
def updateEvent (store : List Event) (eid : Nat) (u : UpdateEventInput) : Option Event :=
  (store.find? fun e => decide (e.id = eid)).map fun e => applyEventUpdate e u

/-- An update request with no changed fields. -/
def emptyEventUpdate : UpdateEventInput := {}

/-- A level-2 child of goal 0, for concrete evaluations. -/
def childOf0 (i : Nat) (p : ℚ) : Goal :=
  { id := i
    title := "child"
    parentId := some 0
    level := 2
    progress := p
    status := GoalStatus.active
    dueDate := none
    completedAt := none
    categoryId := none }

/-- Three active children with progress 1, 1 and 0: mean 2/3. -/
def c1Store : List Goal := [childOf0 1 1, childOf0 2 1, childOf0 3 0]

/-- A single completed child with progress 100. -/
def c1Store2 : List Goal := [{ childOf0 1 100 with status := GoalStatus.completed }]

/-- An active parent goal without completion timestamp. -/
def c2Parent : Goal :=
  { id := 0
    title := "parent"
    parentId := none
    level := 1
    progress := 50
    status := GoalStatus.active
    dueDate := none
    completedAt := none
    categoryId := none }

/-- A completed parent goal whose completion timestamp is set. -/
def c2ParentDone : Goal :=
  { c2Parent with status := GoalStatus.completed, progress := 100, completedAt := some 3 }

/-- Stats rows that differ only in the streak fields. -/
def c9Stats1 : Stats :=
  { totalGoals := 0
    completedGoals := 0
    totalEvents := 0
    completedEvents := 2
    currentStreak := 5
    longestStreak := 9 }

/-- The all-zero stats row. -/
def c9Stats0 : Stats :=
  { totalGoals := 0
    completedGoals := 0
    totalEvents := 0
    completedEvents := 0
    currentStreak := 0
    longestStreak := 0 }

/-- A paused goal, for the updateProgress status claims. -/
def c10Paused : Goal :=
  { id := 7
    title := "paused"
    parentId := none
    level := 1
    progress := 10
    status := GoalStatus.paused
    dueDate := none
    completedAt := none
    categoryId := none }

/-- A cancelled goal, for the updateProgress status claims. -/
def c10Cancelled : Goal := { c10Paused with id := 8, status := GoalStatus.cancelled }

/-- A level-4 goal, the deepest allowed. -/
def c5Parent4 : Goal :=
  { id := 1
    title := "leaf"
    parentId := none
    level := 4
    progress := 0
    status := GoalStatus.active
    dueDate := none
    completedAt := none
    categoryId := none }

/-- A store holding only the level-4 goal. -/
def c5Store : List Goal := [c5Parent4]

/-- A creation request that hangs a child under the level-4 goal. -/
def c5Input : CreateGoalInput := { title := "child", parentId := some 1, level := 5 }

/-- A valid root-goal creation request. -/
def c5RootInput : CreateGoalInput := { title := "root", level := 1 }

/-- The event of the round-trip claim: 2024-01-01T09:00Z to
2024-01-01T10:00Z, not all-day (timestamps in epoch milliseconds). -/
def c8Event : Event :=
  createEvent 1
    { title := "meeting"
      startDate := 1704099600000
      endDate := 1704103200000
      allDay := some false }

/-- A root goal used as scaffolding for the move scenario. -/
def c4Root10 : Goal :=
  { id := 10
    title := "r1"
    parentId := none
    level := 1
    progress := 0
    status := GoalStatus.active
    dueDate := none
    completedAt := none
    categoryId := none }

/-- Level-2 goal under the scaffolding root. -/
def c4Mid11 : Goal := { c4Root10 with id := 11, parentId := some 10, level := 2 }

/-- Level-3 goal that will become the new parent. -/
def c4Parent12 : Goal := { c4Root10 with id := 12, parentId := some 11, level := 3 }

/-- The root goal that gets moved under the level-3 goal. -/
def c4Goal1 : Goal := { c4Root10 with id := 1 }

/-- The child of the moved goal, at level 2 before the move. -/
def c4Child2 : Goal := { c4Root10 with id := 2, parentId := some 1, level := 2 }

/-- A well-formed store: two root trees, all levels consistent. -/
def c4Store : List Goal := [c4Root10, c4Mid11, c4Parent12, c4Goal1, c4Child2]

/-- The store moveGoal produces when goal 1 is moved under goal 12:
goal 1 becomes level 4, but its child keeps level 2 because
updateDescendantLevels skips children whose new level would exceed 4. -/
def c4StoreMoved : List Goal :=
  [c4Root10, c4Mid11, c4Parent12,
   { c4Goal1 with parentId := some 12, level := 4 }, c4Child2]

/-- A goal two full days (plus 1 ms) past due at now = 0. -/
def c6Goal : Goal :=
  { id := 21
    title := "late"
    parentId := none
    level := 1
    progress := 40
    status := GoalStatus.active
    dueDate := some (-172800001)
    completedAt := none
    categoryId := none }

/-- An active level-4 goal with no due date. -/
def c7GoalNoDue : Goal :=
  { id := 5
    title := "daily"
    parentId := none
    level := 4
    progress := 0
    status := GoalStatus.active
    dueDate := none
    completedAt := none
    categoryId := none }

/-- A root goal whose stored progress already matches its child. -/
def c3Root : Goal :=
  { id := 1
    title := "root"
    parentId := none
    level := 1
    progress := 100
    status := GoalStatus.active
    dueDate := none
    completedAt := none
    categoryId := none }

/-- A completed child of the root, progress 100. -/
def c3Child : Goal :=
  { id := 2
    title := "child"
    parentId := some 1
    level := 2
    progress := 100
    status := GoalStatus.completed
    dueDate := none
    completedAt := none
    categoryId := none }

/-- A two-level hierarchy for the propagation claims. -/
def c3Store : List Goal := [c3Root, c3Child]


lemma relevant_eq_eligible (store : List Goal) (pid : Nat) :
    ((getGoalChildren store pid).filter fun c =>
      decide (c.status = GoalStatus.active ∨ c.status = GoalStatus.completed)) =
    eligibleChildren store pid := by
  unfold getGoalChildren eligibleChildren
  rw [List.filter_filter]
  congr 1
  funext a
  simp only [Bool.decide_and]
  exact Bool.and_comm _ _

lemma calculateParentProgress_eq_round2_mean (store : List Goal) (pid : Nat)
    (h : eligibleChildren store pid ≠ []) :
    calculateParentProgress store pid = round2 (meanProgress (eligibleChildren store pid)) := by
  have hrel := relevant_eq_eligible store pid
  have hch : ¬ (getGoalChildren store pid).isEmpty = true := by
    intro hemp
    rw [List.isEmpty_eq_true] at hemp
    rw [hemp] at hrel
    simp only [List.filter_nil] at hrel
    exact h hrel.symm
  have hne : ¬ ((getGoalChildren store pid).filter fun c =>
      decide (c.status = GoalStatus.active ∨ c.status = GoalStatus.completed)).isEmpty = true := by
    rw [List.isEmpty_eq_true, hrel]
    exact h
  simp only [calculateParentProgress]
  rw [if_neg hch, if_neg hne, hrel]
  rfl

lemma calculateParentProgress_eq_zero (store : List Goal) (pid : Nat)
    (h : eligibleChildren store pid = []) :
    calculateParentProgress store pid = 0 := by
  have hrel := relevant_eq_eligible store pid
  by_cases hch : (getGoalChildren store pid).isEmpty = true
  · simp only [calculateParentProgress]
    rw [if_pos hch]
  · have hne : ((getGoalChildren store pid).filter fun c =>
        decide (c.status = GoalStatus.active ∨ c.status = GoalStatus.completed)).isEmpty = true := by
      rw [List.isEmpty_eq_true, hrel]
      exact h
    simp only [calculateParentProgress]
    rw [if_neg hch, if_pos hne]

lemma calculate_parent_goal_progress_eq_mean (store : List Goal) (pid : Nat)
    (h : activeChildren store pid ≠ []) :
    calculate_parent_goal_progress store pid = meanProgress (activeChildren store pid) := by
  have hne : ¬ (store.filter fun g =>
      decide (g.parentId = some pid ∧ g.status = GoalStatus.active)).isEmpty = true := by
    rw [List.isEmpty_eq_true]
    exact h
  simp only [calculate_parent_goal_progress]
  rw [if_neg hne]
  rfl

lemma calculate_parent_goal_progress_eq_zero (store : List Goal) (pid : Nat)
    (h : activeChildren store pid = []) :
    calculate_parent_goal_progress store pid = 0 := by
  have hemp : (store.filter fun g =>
      decide (g.parentId = some pid ∧ g.status = GoalStatus.active)).isEmpty = true := by
    rw [List.isEmpty_eq_true]
    exact h
  simp only [calculate_parent_goal_progress]
  rw [if_pos hemp]

lemma eligible_c1Store : eligibleChildren c1Store 0 = c1Store := by rfl

lemma mean_c1Store : meanProgress c1Store = 2 / 3 := by
  norm_num [meanProgress, sumProgress, c1Store, childOf0]

lemma round2_two_thirds : round2 (2 / 3) = 67 / 100 := by
  have h : jsRound (2 / 3 * 100) = 67 := by
    unfold jsRound
    rw [Int.floor_eq_iff]
    norm_num
  unfold round2
  rw [h]
  norm_num

/-- C1 (counterexample): the recomputed parent progress does not in
general equal the arithmetic mean of the active/completed children's
progress: the client recompute rounds the mean of 1, 1, 0 (namely 2/3)
to 0.67, and the storage recompute of a single completed child with
progress 100 is 0, not 100, because it averages only `active`
children. -/
theorem parent_progress_claim_counterexample :
    calculateParentProgress c1Store 0 ≠ meanProgress (eligibleChildren c1Store 0) ∧
    eligibleChildren c1Store 0 ≠ [] ∧
    calculate_parent_goal_progress c1Store2 0 ≠ meanProgress (eligibleChildren c1Store2 0) ∧
    eligibleChildren c1Store2 0 ≠ [] := by
  refine ⟨?_, by decide, ?_, by decide⟩
  · rw [calculateParentProgress_eq_round2_mean c1Store 0 (by decide),
      eligible_c1Store, mean_c1Store, round2_two_thirds]
    norm_num
  · rw [calculate_parent_goal_progress_eq_zero c1Store2 0 (by decide)]
    have h1 : eligibleChildren c1Store2 0 = c1Store2 := by rfl
    have h2 : meanProgress c1Store2 = 100 := by
      norm_num [meanProgress, sumProgress, c1Store2, childOf0]
    rw [h1, h2]
    norm_num

/-- C1 (amended): the client-side recompute equals the arithmetic mean
of the `active`/`completed` children's progress rounded to two decimal
places (JS Math.round at the second decimal), and 0 when there is no
such child; the storage-layer recompute equals the exact mean over the
`active` children only, and 0 when there is no active child. -/
theorem parentProgress_recompute_characterization (store : List Goal) (pid : Nat) :
    (eligibleChildren store pid ≠ [] →
      calculateParentProgress store pid = round2 (meanProgress (eligibleChildren store pid))) ∧
    (eligibleChildren store pid = [] → calculateParentProgress store pid = 0) ∧
    (activeChildren store pid ≠ [] →
      calculate_parent_goal_progress store pid = meanProgress (activeChildren store pid)) ∧
    (activeChildren store pid = [] → calculate_parent_goal_progress store pid = 0) :=
  ⟨calculateParentProgress_eq_round2_mean store pid,
   calculateParentProgress_eq_zero store pid,
   calculate_parent_goal_progress_eq_mean store pid,
   calculate_parent_goal_progress_eq_zero store pid⟩

/-- C1 (witness): at the concrete stores, the amended characterization
evaluates as stated. -/
theorem parentProgress_recompute_characterization_witness :
    calculateParentProgress c1Store 0 = round2 (meanProgress (eligibleChildren c1Store 0)) ∧
    calculate_parent_goal_progress c1Store2 0 = 0 :=
  ⟨(parentProgress_recompute_characterization c1Store 0).1 (by decide),
   (parentProgress_recompute_characterization c1Store2 0).2.2.2 (by decide)⟩

/-- C2: given the recomputed progress `p`, the storage trigger
`update_parent_goal_progress` sets status `completed` and stamps the
completion time exactly once when `p = 100` (an existing stamp is
kept), and reverts a completed parent to `active` and clears the stamp
when `p < 100`. -/
theorem update_parent_goal_progress_contract (parent : Goal) (p : ℚ) (now : ℤ) :
    (p = 100 →
      (update_parent_goal_progress parent p now).status = GoalStatus.completed ∧
      (parent.completedAt = none →
        (update_parent_goal_progress parent p now).completedAt = some now) ∧
      (parent.completedAt ≠ none →
        (update_parent_goal_progress parent p now).completedAt = parent.completedAt)) ∧
    (parent.status = GoalStatus.completed → p < 100 →
      (update_parent_goal_progress parent p now).status = GoalStatus.active ∧
      (update_parent_goal_progress parent p now).completedAt = none) := by
  unfold update_parent_goal_progress
  constructor
  · rintro rfl
    refine ⟨by simp, fun hnone => ?_, fun hsome => ?_⟩
    · simp [hnone]
    · simp [hsome]
  · intro hst hlt
    have h100 : p ≠ 100 := ne_of_lt hlt
    constructor
    · simp [h100, hst, hlt]
    · simp [h100, hlt]

/-- C2 (witness): on a fresh parent progress 100 stamps now; on an
already-stamped parent it keeps the old stamp; dropping under 100
reverts to active and clears the stamp. -/
theorem update_parent_goal_progress_contract_witness :
    (update_parent_goal_progress c2Parent 100 7).status = GoalStatus.completed ∧
    (update_parent_goal_progress c2Parent 100 7).completedAt = some 7 ∧
    (update_parent_goal_progress c2ParentDone 100 7).completedAt = some 3 ∧
    (update_parent_goal_progress c2ParentDone 50 7).status = GoalStatus.active ∧
    (update_parent_goal_progress c2ParentDone 50 7).completedAt = none := by
  refine ⟨((update_parent_goal_progress_contract c2Parent 100 7).1 rfl).1,
    ((update_parent_goal_progress_contract c2Parent 100 7).1 rfl).2.1 rfl,
    ?_,
    ((update_parent_goal_progress_contract c2ParentDone 50 7).2 rfl (by norm_num)).1,
    ((update_parent_goal_progress_contract c2ParentDone 50 7).2 rfl (by norm_num)).2⟩
  exact ((update_parent_goal_progress_contract c2ParentDone 100 7).1 rfl).2.2 (by decide)

/-- C9 (counterexample): the stats written by the trigger are not a
recomputation from the goal and event rows: with no rows at all, the
written snapshot still carries the previous `currentStreak`,
`longestStreak` and `completedEvents` values. -/
theorem update_user_stats_counterexample :
    update_user_stats [] [] c9Stats1 ≠ update_user_stats [] [] c9Stats0 ∧
    (update_user_stats [] [] c9Stats1).currentStreak = 5 ∧
    (update_user_stats [] [] c9Stats1).longestStreak = 9 ∧
    (update_user_stats [] [] c9Stats1).completedEvents = 2 := by
  decide

/-- C9 (amended): on any goal or event change the trigger rewrites the
profile stats, recomputing the goal total, the completed-goal count and
the event total from the rows, while `completedEvents`,
`currentStreak` and `longestStreak` are carried over unchanged from
the stored stats instead of being recomputed. -/
theorem update_user_stats_fields (goals : List Goal) (events : List Event) (old : Stats) :
    (update_user_stats goals events old).totalGoals = (goals.length : ℤ) ∧
    (update_user_stats goals events old).completedGoals =
      ((goals.countP fun g => decide (g.status = GoalStatus.completed)) : ℤ) ∧
    (update_user_stats goals events old).totalEvents = (events.length : ℤ) ∧
    (update_user_stats goals events old).completedEvents = old.completedEvents ∧
    (update_user_stats goals events old).currentStreak = old.currentStreak ∧
    (update_user_stats goals events old).longestStreak = old.longestStreak := by
  refine ⟨rfl, ?_, rfl, rfl, rfl, rfl⟩
  simp [update_user_stats, List.countP_eq_length_filter]

/-- C10 (counterexample): updateProgress with raw progress 150 on a
paused goal sets status `completed` (the clamp makes the stored
progress 100, and the auto-complete branch of updateGoal fires), while
the claim requires `active` for any p other than 100. -/
theorem updateProgress_status_counterexample :
    (updateProgress c10Paused 150 0).status = GoalStatus.completed ∧
    (150 : ℚ) ≠ 100 := by
  constructor
  · decide
  · norm_num

/-- C10 (amended): updateProgress sets the status purely as a function
of the raw progress input p: `completed` exactly when 100 ≤ p (values
above 100 are clamped to 100 and auto-completed), and `active` for
p < 100 regardless of the previous status. -/
theorem updateProgress_status_characterization (g : Goal) (p : ℚ) (now : ℤ) :
    ((updateProgress g p now).status = GoalStatus.completed ↔ 100 ≤ p) ∧
    (p < 100 → (updateProgress g p now).status = GoalStatus.active) := by
  unfold updateProgress updateGoalRow
  by_cases h : p = 100
  · subst h
    norm_num
  · by_cases hle : (100 : ℚ) ≤ p
    · have hmax : max (0 : ℚ) p = p := max_eq_right (le_trans (by norm_num) hle)
      have hmin : min (100 : ℚ) p = 100 := min_eq_left hle
      simp [h, hle, hmax, hmin, not_lt_of_le hle]
    · push_neg at hle
      have hne : min (100 : ℚ) (max 0 p) ≠ 100 := by
        have hmaxlt : max (0 : ℚ) p < 100 := max_lt (by norm_num) hle
        exact ne_of_lt (lt_of_le_of_lt (min_le_right _ _) hmaxlt)
      simp [h, hne, hle, not_le_of_lt hle]

/-- C10 (witness): p = 50 on a cancelled goal yields status `active`;
p = 100 on a paused goal yields status `completed`. -/
theorem updateProgress_status_characterization_witness :
    (updateProgress c10Cancelled 50 0).status = GoalStatus.active ∧
    (updateProgress c10Paused 100 0).status = GoalStatus.completed :=
  ⟨(updateProgress_status_characterization c10Cancelled 50 0).2 (by norm_num),
   (updateProgress_status_characterization c10Paused 100 0).1.mpr (by norm_num)⟩

lemma find?_key_eq_some {α : Type} (key : α → Nat) (l : List α) (a : α)
    (hnd : (l.map key).Nodup) (ha : a ∈ l) :
    l.find? (fun x => decide (key x = key a)) = some a := by
  induction l with
  | nil => cases ha
  | cons h t ih =>
    rw [List.map_cons, List.nodup_cons] at hnd
    rcases List.mem_cons.mp ha with rfl | ha'
    · simp [List.find?_cons]
    · have hne : key h ≠ key a := fun he => hnd.1 (he ▸ List.mem_map_of_mem key ha')
      rw [List.find?_cons]
      simp only [hne, decide_eq_true_eq, if_neg, Bool.false_eq_true, reduceIte]
      exact ih hnd.2 ha'

lemma getGoal_of_mem (store : List Goal) (g : Goal)
    (hnd : (store.map Goal.id).Nodup) (hg : g ∈ store) :
    getGoal store g.id = some g :=
  find?_key_eq_some Goal.id store g hnd hg

/-- C5: for an authenticated user whose referenced parent exists,
createGoal fails exactly when the hierarchy rule is violated (parent
level at least 4, or requested level not parent level plus one, or a
root request whose level is not 1), and otherwise appends exactly the
new goal. -/
theorem createGoal_error_iff (store : List Goal) (newId : Nat) (input : CreateGoalInput)
    (hpar : ∀ pid, input.parentId = some pid → (getGoal store pid).isSome = true) :
    ((∃ e, createGoal store true newId input = Except.error e) ↔
      hierarchyViolation store input) ∧
    (¬ hierarchyViolation store input →
      createGoal store true newId input = Except.ok (store ++ [mkGoal newId input])) := by
  unfold createGoal hierarchyViolation
  cases hp : input.parentId with
  | none =>
    by_cases hl : input.level = 1
    · simp [hl]
    · simp [hl]
  | some pid =>
    have hsome := hpar pid hp
    cases hg : getGoal store pid with
    | none => rw [hg] at hsome; simp at hsome
    | some parent =>
      by_cases h4 : 4 ≤ parent.level
      · simp [hg, h4]
      · by_cases hl : input.level = parent.level + 1
        · simp [hg, h4, hl]
        · simp [hg, h4, hl]

/-- C5 (witness): hanging a level-5 child under a level-4 parent fails;
creating a level-1 root succeeds and appends exactly the new goal. -/
theorem createGoal_error_iff_witness :
    (∃ e, createGoal c5Store true 9 c5Input = Except.error e) ∧
    createGoal c5Store true 10 c5RootInput = Except.ok (c5Store ++ [mkGoal 10 c5RootInput]) := by
  constructor
  · refine (createGoal_error_iff c5Store 9 c5Input ?_).1.mpr ?_
    · intro pid hpid
      have h2 : some (1 : Nat) = some pid := hpid
      have h1 : pid = 1 := (Option.some.inj h2).symm
      subst h1
      rfl
    · exact ⟨c5Parent4, rfl, Or.inl (by norm_num [c5Parent4])⟩
  · refine (createGoal_error_iff c5Store 10 c5RootInput ?_).2 ?_
    · intro pid hpid
      simp [c5RootInput] at hpid
    · exact fun hv => hv rfl

lemma applyEventUpdate_empty (e : Event) : applyEventUpdate e emptyEventUpdate = e := rfl

/-- C8: updating an event with an update request carrying no fields
returns the stored event unchanged in every field. -/
theorem updateEvent_no_change_roundtrip (store : List Event) (e : Event)
    (hmem : e ∈ store) (hnd : (store.map Event.id).Nodup) :
    updateEvent store e.id emptyEventUpdate = some e := by
  unfold updateEvent
  rw [find?_key_eq_some Event.id store e hnd hmem]
  simp [applyEventUpdate_empty]

/-- C8 (witness): the event created for 2024-01-01T09:00Z to
2024-01-01T10:00Z with allDay false round-trips unchanged through an
update with no changed fields. -/
theorem updateEvent_no_change_roundtrip_witness :
    updateEvent [c8Event] c8Event.id emptyEventUpdate = some c8Event ∧
    c8Event.startDate = 1704099600000 ∧
    c8Event.endDate = 1704103200000 ∧
    c8Event.allDay = false :=
  ⟨updateEvent_no_change_roundtrip [c8Event] c8Event (by simp) (by simp),
   rfl, rfl, rfl⟩

/-- C4: moving a goal that has a child under a level-3 parent makes
the moved goal level 4, while updateDescendantLevels silently skips the
child (its new level 5 would exceed 4) and leaves it at level 2; the
stored collection then violates the level invariant, although it
satisfied it before the move. -/
theorem moveGoal_breaks_level_invariant :
    levelInvariant c4Store ∧
    moveGoal 5 c4Store 1 (some 12) = Except.ok c4StoreMoved ∧
    ¬ levelInvariant c4StoreMoved := by
  refine ⟨by decide, by rfl, by decide⟩

lemma calculateUrgency_buckets (d : ℤ) :
    (1 ≤ d → d ≤ 2 → calculateUrgency d = Urgency.medium) ∧
    (3 ≤ d → d ≤ 6 → calculateUrgency d = Urgency.high) ∧
    (7 ≤ d → calculateUrgency d = Urgency.critical) := by
  unfold calculateUrgency
  refine ⟨fun h1 h2 => ?_, fun h1 h2 => ?_, fun h1 => ?_⟩
  · rw [if_neg (by omega), if_neg (by omega), if_pos h1]
  · rw [if_neg (by omega), if_pos h1]
  · rw [if_pos h1]

lemma overdueLE_trans (a b c : OverdueItem) :
    overdueLE a b = true → overdueLE b c = true → overdueLE a c = true := by
  simp only [overdueLE, Bool.or_eq_true, Bool.and_eq_true, decide_eq_true_eq]
  omega

lemma overdueLE_total (a b : OverdueItem) : overdueLE a b || overdueLE b a := by
  simp only [overdueLE, Bool.or_eq_true, Bool.and_eq_true, decide_eq_true_eq]
  omega

lemma mkOverdueGoalItem_fields (now : ℤ) (g : Goal) (due : ℤ) (hdd : g.dueDate = some due) :
    (mkOverdueGoalItem now g).id = g.id ∧
    (mkOverdueGoalItem now g).type = ItemType.goal ∧
    (mkOverdueGoalItem now g).dueDate = due ∧
    (mkOverdueGoalItem now g).daysOverdue = differenceInDays now due ∧
    (mkOverdueGoalItem now g).urgency = calculateUrgency (differenceInDays now due) := by
  simp [mkOverdueGoalItem, hdd]

lemma mkOverdueEventItem_fields (now : ℤ) (e : Event) :
    (mkOverdueEventItem now e).id = e.id ∧
    (mkOverdueEventItem now e).type = ItemType.event ∧
    (mkOverdueEventItem now e).dueDate = e.endDate ∧
    (mkOverdueEventItem now e).daysOverdue = differenceInDays now e.endDate ∧
    (mkOverdueEventItem now e).urgency = calculateUrgency (differenceInDays now e.endDate) :=
  ⟨rfl, rfl, rfl, rfl, rfl⟩

lemma overdueItem_shape (goals : List Goal) (events : List Event) (now : ℤ)
    (it : OverdueItem) (hit : it ∈ getOverdueItems goals events now) :
    it.urgency = calculateUrgency it.daysOverdue ∧
    (it.type = ItemType.goal → ∃ g ∈ goals, g.id = it.id ∧ g.dueDate = some it.dueDate ∧
      it.dueDate < now ∧ g.status ≠ GoalStatus.completed ∧
      it.daysOverdue = differenceInDays now it.dueDate) ∧
    (it.type = ItemType.event → ∃ e ∈ events, e.id = it.id ∧ e.endDate = it.dueDate ∧
      it.dueDate < now ∧ it.daysOverdue = differenceInDays now it.dueDate) := by
  rw [getOverdueItems, List.mem_mergeSort] at hit
  rcases List.mem_append.mp hit with hgl | hev
  · rcases List.mem_map.mp hgl with ⟨g, hgf, rfl⟩
    rcases List.mem_filter.mp hgf with ⟨hgmem, hover⟩
    unfold isOverdueGoal at hover
    cases hdd : g.dueDate with
    | none => rw [hdd] at hover; simp at hover
    | some due =>
      rw [hdd, decide_eq_true_eq] at hover
      obtain ⟨hlt, hst⟩ := hover
      obtain ⟨hid, hty, hdue, hdays, hurg⟩ := mkOverdueGoalItem_fields now g due hdd
      refine ⟨by rw [hurg, hdays], fun _ => ⟨g, hgmem, hid.symm, ?_, ?_, hst, ?_⟩, fun hty2 => ?_⟩
      · rw [hdue, hdd]
      · rw [hdue]; exact hlt
      · rw [hdays, hdue]
      · rw [hty] at hty2; cases hty2
  · rcases List.mem_map.mp hev with ⟨e, hef, rfl⟩
    rcases List.mem_filter.mp hef with ⟨hemem, hover⟩
    unfold isOverdueEvent at hover
    rw [decide_eq_true_eq] at hover
    obtain ⟨hid, hty, hdue, hdays, hurg⟩ := mkOverdueEventItem_fields now e
    refine ⟨by rw [hurg, hdays], fun hty2 => ?_, fun _ => ⟨e, hemem, hid.symm, ?_, ?_, ?_⟩⟩
    · rw [hty] at hty2; cases hty2
    · rw [hdue]
    · rw [hdue]; exact hover
    · rw [hdays, hdue]

/-- C6: every item of the overdue list is an overdue goal (past due
and not completed) or an overdue event (past end), zero-days-overdue
items that are not yet past are excluded, the urgency bucket follows
the 1-2 / 3-6 / 7+ thresholds, and the list is ordered by urgency rank
descending then days overdue descending. -/
theorem getOverdueItems_spec (goals : List Goal) (events : List Event) (now : ℤ) :
    (∀ it ∈ getOverdueItems goals events now,
      (it.type = ItemType.goal → ∃ g ∈ goals, g.id = it.id ∧ g.dueDate = some it.dueDate ∧
        it.dueDate < now ∧ g.status ≠ GoalStatus.completed ∧
        it.daysOverdue = differenceInDays now it.dueDate) ∧
      (it.type = ItemType.event → ∃ e ∈ events, e.id = it.id ∧ e.endDate = it.dueDate ∧
        it.dueDate < now ∧ it.daysOverdue = differenceInDays now it.dueDate) ∧
      (1 ≤ it.daysOverdue → it.daysOverdue ≤ 2 → it.urgency = Urgency.medium) ∧
      (3 ≤ it.daysOverdue → it.daysOverdue ≤ 6 → it.urgency = Urgency.high) ∧
      (7 ≤ it.daysOverdue → it.urgency = Urgency.critical)) ∧
    (getOverdueItems goals events now).Pairwise (fun a b => overdueLE a b = true) := by
  constructor
  · intro it hit
    obtain ⟨hurg, hgoal, hevent⟩ := overdueItem_shape goals events now it hit
    obtain ⟨hm, hh, hc⟩ := calculateUrgency_buckets it.daysOverdue
    exact ⟨hgoal, hevent,
      fun h1 h2 => by rw [hurg]; exact hm h1 h2,
      fun h1 h2 => by rw [hurg]; exact hh h1 h2,
      fun h1 => by rw [hurg]; exact hc h1⟩
  · exact List.sorted_mergeSort overdueLE_trans overdueLE_total _

/-- C6 (witness): at now = 0 a goal due 2 days and 1 ms earlier is
listed as a goal item with daysOverdue 2 and urgency medium. -/
theorem getOverdueItems_spec_witness :
    (mkOverdueGoalItem 0 c6Goal).urgency = Urgency.medium ∧
    (∃ g ∈ [c6Goal], g.id = (mkOverdueGoalItem 0 c6Goal).id ∧
      g.dueDate = some (mkOverdueGoalItem 0 c6Goal).dueDate ∧
      (mkOverdueGoalItem 0 c6Goal).dueDate < 0 ∧ g.status ≠ GoalStatus.completed ∧
      (mkOverdueGoalItem 0 c6Goal).daysOverdue =
        differenceInDays 0 (mkOverdueGoalItem 0 c6Goal).dueDate) := by
  have hmem : mkOverdueGoalItem 0 c6Goal ∈ getOverdueItems [c6Goal] [] 0 := by
    rw [getOverdueItems, List.mem_mergeSort]
    refine List.mem_append.mpr (Or.inl (List.mem_map_of_mem _ (List.mem_filter.mpr
      ⟨List.mem_singleton_self _, by decide⟩)))
  have h := (getOverdueItems_spec [c6Goal] [] 0).1 _ hmem
  exact ⟨h.2.2.1 (by decide) (by decide), h.1 rfl⟩

set_option linter.unnecessarySeqFocus false in
lemma dueTimeLE_total (x y : Option ℤ) : dueTimeLE x y = true ∨ dueTimeLE y x = true := by
  cases x <;> cases y <;> simp [dueTimeLE] <;> omega

set_option linter.unnecessarySeqFocus false in
lemma dueTimeLE_trans (x y z : Option ℤ) :
    dueTimeLE x y = true → dueTimeLE y z = true → dueTimeLE x z = true := by
  cases x <;> cases y <;> cases z <;> simp [dueTimeLE] <;> omega

lemma todayLE_trans (a b c : TodayTask) :
    todayLE a b = true → todayLE b c = true → todayLE a c = true := by
  simp only [todayLE, Bool.or_eq_true, Bool.and_eq_true, decide_eq_true_eq]
  intro hab hbc
  rcases hab with hab | ⟨hab1, hab2⟩ <;> rcases hbc with hbc | ⟨hbc1, hbc2⟩
  · exact Or.inl (lt_trans hbc hab)
  · exact Or.inl (by rw [← hbc1]; exact hab)
  · exact Or.inl (by rw [hab1]; exact hbc)
  · exact Or.inr ⟨hab1.trans hbc1, dueTimeLE_trans _ _ _ hab2 hbc2⟩

lemma todayLE_total (a b : TodayTask) : todayLE a b || todayLE b a := by
  simp only [todayLE, Bool.or_eq_true, Bool.and_eq_true, decide_eq_true_eq]
  rcases lt_trichotomy a.priority b.priority with h | h | h
  · exact Or.inr (Or.inl h)
  · rcases dueTimeLE_total a.dueTime b.dueTime with hd | hd
    · exact Or.inl (Or.inr ⟨h, hd⟩)
    · exact Or.inr (Or.inr ⟨h.symm, hd⟩)
  · exact Or.inl (Or.inl h)

lemma mkGoalTask_fields (now : ℤ) (g : Goal) :
    (mkGoalTask now g).id = g.id ∧ (mkGoalTask now g).type = ItemType.goal ∧
    (mkGoalTask now g).priority = calculateGoalPriority now g :=
  ⟨rfl, rfl, rfl⟩

lemma mkEventTask_fields (now : ℤ) (e : Event) :
    (mkEventTask now e).id = e.id ∧ (mkEventTask now e).type = ItemType.event ∧
    (mkEventTask now e).priority = calculateEventPriority now e :=
  ⟨rfl, rfl, rfl⟩

lemma todayTask_shape (goals : List Goal) (events : List Event) (now : ℤ)
    (t : TodayTask) (ht : t ∈ getTodayTasks goals events now) :
    (t.type = ItemType.goal → ∃ g ∈ goals, g.id = t.id ∧ g.level = 4 ∧
      g.status = GoalStatus.active ∧ (isDueToday now g = true ∨ g.dueDate = none) ∧
      t.priority = calculateGoalPriority now g) ∧
    (t.type = ItemType.event → ∃ e ∈ events, e.id = t.id ∧ isTodayTs e.startDate now ∧
      t.priority = calculateEventPriority now e) := by
  rw [getTodayTasks, List.mem_mergeSort] at ht
  rcases List.mem_append.mp ht with hgl | hev
  · rcases List.mem_map.mp hgl with ⟨g, hgf, rfl⟩
    rcases List.mem_filter.mp hgf with ⟨hgmem, hcond⟩
    rw [decide_eq_true_eq] at hcond
    obtain ⟨hlev, hst, hdue⟩ := hcond
    obtain ⟨hid, hty, hpr⟩ := mkGoalTask_fields now g
    refine ⟨fun _ => ⟨g, hgmem, hid.symm, hlev, hst, hdue, hpr⟩, fun hty2 => ?_⟩
    rw [hty] at hty2
    cases hty2
  · rcases List.mem_map.mp hev with ⟨e, hef, rfl⟩
    rcases List.mem_filter.mp hef with ⟨hemem, hcond⟩
    rw [decide_eq_true_eq] at hcond
    obtain ⟨hid, hty, hpr⟩ := mkEventTask_fields now e
    refine ⟨fun hty2 => ?_, fun _ => ⟨e, hemem, hid.symm, hcond, hpr⟩⟩
    rw [hty] at hty2
    cases hty2

/-- C7 (counterexample): the today list is not exactly the merge of
the level-4 goals due today and the events starting today: an active
level-4 goal with no due date at all is listed even though nothing is
due today and there are no events. -/
theorem todayTasks_claim_counterexample :
    ¬ (∀ t ∈ getTodayTasks [c7GoalNoDue] [] 0,
        (∃ g ∈ [c7GoalNoDue], g.id = t.id ∧ g.level = 4 ∧ isDueToday 0 g = true) ∨
        (∃ e ∈ ([] : List Event), isTodayTs e.startDate 0 ∧ e.id = t.id)) := by
  intro h
  have hmem : mkGoalTask 0 c7GoalNoDue ∈ getTodayTasks [c7GoalNoDue] [] 0 := by
    rw [getTodayTasks, List.mem_mergeSort]
    refine List.mem_append.mpr (Or.inl (List.mem_map_of_mem _ (List.mem_filter.mpr
      ⟨List.mem_singleton_self _, by decide⟩)))
  rcases h _ hmem with ⟨g, hgmem, _, _, hdue⟩ | ⟨e, hemem, _⟩
  · rw [List.mem_singleton] at hgmem
    subst hgmem
    simp [isDueToday, c7GoalNoDue] at hdue
  · simp at hemem

/-- C7 (amended): the today list contains exactly the active level-4
goals that are due today or have no due date, plus the events starting
today, each carrying its priority score, and it is ordered by priority
descending with ties broken by due time. -/
theorem getTodayTasks_spec (goals : List Goal) (events : List Event) (now : ℤ) :
    (∀ t ∈ getTodayTasks goals events now,
      (t.type = ItemType.goal → ∃ g ∈ goals, g.id = t.id ∧ g.level = 4 ∧
        g.status = GoalStatus.active ∧ (isDueToday now g = true ∨ g.dueDate = none) ∧
        t.priority = calculateGoalPriority now g) ∧
      (t.type = ItemType.event → ∃ e ∈ events, e.id = t.id ∧ isTodayTs e.startDate now ∧
        t.priority = calculateEventPriority now e)) ∧
    (∀ g ∈ goals, g.level = 4 → g.status = GoalStatus.active →
      (isDueToday now g = true ∨ g.dueDate = none) →
      mkGoalTask now g ∈ getTodayTasks goals events now) ∧
    (∀ e ∈ events, isTodayTs e.startDate now →
      mkEventTask now e ∈ getTodayTasks goals events now) ∧
    (getTodayTasks goals events now).Pairwise (fun a b => todayLE a b = true) := by
  refine ⟨todayTask_shape goals events now, ?_, ?_, ?_⟩
  · intro g hg hlev hst hdue
    rw [getTodayTasks, List.mem_mergeSort]
    refine List.mem_append.mpr (Or.inl (List.mem_map_of_mem _ (List.mem_filter.mpr
      ⟨hg, ?_⟩)))
    rw [decide_eq_true_eq]
    exact ⟨hlev, hst, hdue⟩
  · intro e he htoday
    rw [getTodayTasks, List.mem_mergeSort]
    refine List.mem_append.mpr (Or.inr (List.mem_map_of_mem _ (List.mem_filter.mpr
      ⟨he, ?_⟩)))
    rw [decide_eq_true_eq]
    exact htoday
  · exact List.sorted_mergeSort todayLE_trans todayLE_total _

/-- C7 (witness): the no-due-date active level-4 goal is listed, and
its entry satisfies the membership characterization. -/
theorem getTodayTasks_spec_witness :
    mkGoalTask 0 c7GoalNoDue ∈ getTodayTasks [c7GoalNoDue] [] 0 ∧
    (∃ g ∈ [c7GoalNoDue], g.id = (mkGoalTask 0 c7GoalNoDue).id ∧ g.level = 4 ∧
      g.status = GoalStatus.active ∧ (isDueToday 0 g = true ∨ g.dueDate = none) ∧
      (mkGoalTask 0 c7GoalNoDue).priority = calculateGoalPriority 0 g) := by
  have hm := (getTodayTasks_spec [c7GoalNoDue] [] 0).2.1 c7GoalNoDue
    (List.mem_singleton_self _) rfl rfl (Or.inr rfl)
  exact ⟨hm, ((getTodayTasks_spec [c7GoalNoDue] [] 0).1 _ hm).1 rfl⟩

lemma updateGoalRow_id (g : Goal) (pI : Option ℚ) (sI : Option GoalStatus) (now : ℤ) :
    (updateGoalRow g pI sI now).id = g.id := by
  simp only [updateGoalRow]
  split
  · rfl
  · rfl

lemma updateGoalRow_parentId (g : Goal) (pI : Option ℚ) (sI : Option GoalStatus) (now : ℤ) :
    (updateGoalRow g pI sI now).parentId = g.parentId := by
  simp only [updateGoalRow]
  split
  · rfl
  · rfl

lemma updateGoalRow_level (g : Goal) (pI : Option ℚ) (sI : Option GoalStatus) (now : ℤ) :
    (updateGoalRow g pI sI now).level = g.level := by
  simp only [updateGoalRow]
  split
  · rfl
  · rfl

lemma update_row_id (uid : Nat) (pI : Option ℚ) (sI : Option GoalStatus) (now : ℤ) (g : Goal) :
    (if g.id = uid then updateGoalRow g pI sI now else g).id = g.id := by
  split
  · exact updateGoalRow_id g pI sI now
  · rfl

lemma update_row_parentId (uid : Nat) (pI : Option ℚ) (sI : Option GoalStatus) (now : ℤ) (g : Goal) :
    (if g.id = uid then updateGoalRow g pI sI now else g).parentId = g.parentId := by
  split
  · exact updateGoalRow_parentId g pI sI now
  · rfl

lemma update_row_level (uid : Nat) (pI : Option ℚ) (sI : Option GoalStatus) (now : ℤ) (g : Goal) :
    (if g.id = uid then updateGoalRow g pI sI now else g).level = g.level := by
  split
  · exact updateGoalRow_level g pI sI now
  · rfl

lemma getGoal_updateGoalInStore (store : List Goal) (uid : Nat) (pI : Option ℚ)
    (sI : Option GoalStatus) (now : ℤ) (gid : Nat) :
    getGoal (updateGoalInStore store uid pI sI now) gid =
      (getGoal store gid).map fun g => if g.id = uid then updateGoalRow g pI sI now else g := by
  unfold getGoal updateGoalInStore
  rw [List.find?_map]
  have he : ((fun g => decide (g.id = gid)) ∘
      fun g => if g.id = uid then updateGoalRow g pI sI now else g) =
      fun g => decide (g.id = gid) := by
    funext a
    simp only [Function.comp_apply]
    rw [update_row_id]
  rw [he]

lemma ancestorIds_updateGoalInStore (store : List Goal) (uid : Nat) (pI : Option ℚ)
    (sI : Option GoalStatus) (now : ℤ) :
    ∀ (fuel : Nat) (gid : Nat),
      ancestorIds (updateGoalInStore store uid pI sI now) fuel gid =
        ancestorIds store fuel gid := by
  intro fuel
  induction fuel with
  | zero => intro gid; rfl
  | succ n ih =>
    intro gid
    simp only [ancestorIds, getGoal_updateGoalInStore]
    cases hg : getGoal store gid with
    | none => rfl
    | some g =>
      simp only [Option.map_some', update_row_parentId]
      cases hp : g.parentId with
      | none => rfl
      | some pid => simp only [ih]

lemma idsNodup_update (store : List Goal) (uid : Nat) (pI : Option ℚ)
    (sI : Option GoalStatus) (now : ℤ) (h : idsNodup store) :
    idsNodup (updateGoalInStore store uid pI sI now) := by
  unfold idsNodup at h ⊢
  unfold updateGoalInStore
  rw [List.map_map]
  have he : (Goal.id ∘ fun g => if g.id = uid then updateGoalRow g pI sI now else g) = Goal.id := by
    funext a
    simp only [Function.comp_apply]
    rw [update_row_id]
  rw [he]
  exact h

lemma levelsPos_update (store : List Goal) (uid : Nat) (pI : Option ℚ)
    (sI : Option GoalStatus) (now : ℤ) (h : levelsPos store) :
    levelsPos (updateGoalInStore store uid pI sI now) := by
  intro g hg
  rcases List.mem_map.mp hg with ⟨a, ha, rfl⟩
  rw [update_row_level]
  exact h a ha

lemma parentWellFormed_update (store : List Goal) (uid : Nat) (pI : Option ℚ)
    (sI : Option GoalStatus) (now : ℤ) (h : parentWellFormed store) :
    parentWellFormed (updateGoalInStore store uid pI sI now) := by
  intro g hg pid hpid
  rcases List.mem_map.mp hg with ⟨a, ha, rfl⟩
  rw [update_row_parentId] at hpid
  obtain ⟨p, hp, hpid2, hplev⟩ := h a ha pid hpid
  refine ⟨if p.id = uid then updateGoalRow p pI sI now else p,
    List.mem_map_of_mem _ hp, ?_, ?_⟩
  · rw [update_row_id]
    exact hpid2
  · rw [update_row_level, update_row_level]
    exact hplev

lemma chain_frame (now : ℤ) :
    ∀ (fuel : Nat) (store : List Goal) (gid : Nat) (s' : List Goal),
      updateParentProgressChain now fuel store gid = some s' →
      ∀ h ∈ store, h.id ∉ ancestorIds store fuel gid → h ∈ s' := by
  intro fuel
  induction fuel with
  | zero =>
    intro store gid s' hch
    simp [updateParentProgressChain] at hch
  | succ n ih =>
    intro store gid s' hch h hh hanc
    simp only [updateParentProgressChain] at hch
    cases hg : getGoal store gid with
    | none => rw [hg] at hch; cases hch
    | some g =>
      rw [hg] at hch
      simp only at hch
      cases hp : g.parentId with
      | none =>
        rw [hp] at hch
        simp only at hch
        obtain rfl := Option.some.inj hch
        exact hh
      | some pid =>
        rw [hp] at hch
        simp only at hch
        cases hpar : getGoal store pid with
        | none => rw [hpar] at hch; cases hch
        | some parent =>
          rw [hpar] at hch
          simp only at hch
          by_cases hd : |parent.progress - calculateParentProgress store pid| > 1 / 100
          · rw [if_pos hd] at hch
            have hanc2 : h.id ∉ ancestorIds store n pid ∧ h.id ≠ pid := by
              simp only [ancestorIds, hg, hp, List.mem_cons] at hanc
              push_neg at hanc
              exact ⟨hanc.2, hanc.1⟩
            have hh2 : h ∈ updateGoalInStore store pid
                (some (calculateParentProgress store pid))
                (some (chainStatus parent (calculateParentProgress store pid))) now := by
              unfold updateGoalInStore
              refine List.mem_map.mpr ⟨h, hh, ?_⟩
              rw [if_neg hanc2.2]
            have hanc3 : h.id ∉ ancestorIds (updateGoalInStore store pid
                (some (calculateParentProgress store pid))
                (some (chainStatus parent (calculateParentProgress store pid))) now) n pid := by
              rw [ancestorIds_updateGoalInStore]
              exact hanc2.1
            exact ih _ _ _ hch h hh2 hanc3
          · rw [if_neg hd] at hch
            obtain rfl := Option.some.inj hch
            exact hh

lemma chain_terminates (now : ℤ) :
    ∀ (fuel : Nat) (store : List Goal) (gid : Nat) (g : Goal),
      idsNodup store → levelsPos store → parentWellFormed store →
      getGoal store gid = some g → g.level ≤ fuel →
      ∃ s', updateParentProgressChain now fuel store gid = some s' := by
  intro fuel
  induction fuel with
  | zero =>
    intro store gid g hnd hpos hpwf hg hle
    have hmem : g ∈ store := List.mem_of_find?_eq_some hg
    have := hpos g hmem
    omega
  | succ n ih =>
    intro store gid g hnd hpos hpwf hg hle
    cases hp : g.parentId with
    | none =>
      refine ⟨store, ?_⟩
      simp only [updateParentProgressChain, hg, hp]
    | some pid =>
      have hmem : g ∈ store := List.mem_of_find?_eq_some hg
      obtain ⟨p, hpmem, hpid, hplev⟩ := hpwf g hmem pid hp
      have hppar : getGoal store pid = some p := by
        rw [← hpid]
        exact getGoal_of_mem store p hnd hpmem
      by_cases hd : |p.progress - calculateParentProgress store pid| > 1 / 100
      · have hnd2 := idsNodup_update store pid
          (some (calculateParentProgress store pid))
          (some (chainStatus p (calculateParentProgress store pid))) now hnd
        have hpos2 := levelsPos_update store pid
          (some (calculateParentProgress store pid))
          (some (chainStatus p (calculateParentProgress store pid))) now hpos
        have hpwf2 := parentWellFormed_update store pid
          (some (calculateParentProgress store pid))
          (some (chainStatus p (calculateParentProgress store pid))) now hpwf
        have hg2 : getGoal (updateGoalInStore store pid
            (some (calculateParentProgress store pid))
            (some (chainStatus p (calculateParentProgress store pid))) now) pid =
            some (updateGoalRow p (some (calculateParentProgress store pid))
              (some (chainStatus p (calculateParentProgress store pid))) now) := by
          rw [getGoal_updateGoalInStore, hppar]
          rw [Option.map_some']
          rw [if_pos hpid]
        have hlev2 : (updateGoalRow p (some (calculateParentProgress store pid))
            (some (chainStatus p (calculateParentProgress store pid))) now).level ≤ n := by
          rw [updateGoalRow_level]
          omega
        obtain ⟨s', hs'⟩ := ih _ pid _ hnd2 hpos2 hpwf2 hg2 hlev2
        refine ⟨s', ?_⟩
        simp only [updateParentProgressChain, hg, hp, hppar, if_pos hd]
        exact hs'
      · refine ⟨store, ?_⟩
        simp only [updateParentProgressChain, hg, hp, hppar, if_neg hd]

/-- C3: in a well-formed goal store (distinct ids, every parent
present with level one less, levels at least 1), upward propagation
from any goal terminates within that goal's level many steps; it
returns the store unchanged when the goal is a root or when the first
ancestor's stored progress is within 0.01 of its recomputed progress;
and any goal that is not among the walked ancestor ids is left
unchanged in the result. -/
theorem updateParentProgressChain_spec (store : List Goal) (now : ℤ)
    (hnd : idsNodup store) (hpos : levelsPos store) (hpwf : parentWellFormed store) :
    ∀ g ∈ store,
      (∃ s', updateParentProgressChain now g.level store g.id = some s') ∧
      (g.parentId = none →
        ∀ fuel, updateParentProgressChain now (fuel + 1) store g.id = some store) ∧
      (∀ pid parent, g.parentId = some pid → getGoal store pid = some parent →
        |parent.progress - calculateParentProgress store pid| ≤ 1 / 100 →
        ∀ fuel, updateParentProgressChain now (fuel + 1) store g.id = some store) ∧
      (∀ fuel s', updateParentProgressChain now fuel store g.id = some s' →
        ∀ h ∈ store, h.id ∉ ancestorIds store fuel g.id → h ∈ s') := by
  intro g hg
  have hgg : getGoal store g.id = some g := getGoal_of_mem store g hnd hg
  refine ⟨chain_terminates now g.level store g.id g hnd hpos hpwf hgg le_rfl, ?_, ?_, ?_⟩
  · intro hp fuel
    simp only [updateParentProgressChain, hgg, hp]
  · intro pid parent hp hpar hd fuel
    simp only [updateParentProgressChain, hgg, hp, hpar]
    rw [if_neg (not_lt.mpr hd)]
  · intro fuel s' hch h hh hanc
    exact chain_frame now fuel store g.id s' hch h hh hanc

/-- C3 (witness): in the concrete two-goal hierarchy whose root
already stores progress 100, propagation from the child terminates,
and one step returns the store unchanged because the recomputed root
progress (100) is within epsilon of the stored one. -/
theorem updateParentProgressChain_spec_witness :
    (∃ s', updateParentProgressChain 0 c3Child.level c3Store c3Child.id = some s') ∧
    updateParentProgressChain 0 1 c3Store c3Child.id = some c3Store := by
  have hnd : idsNodup c3Store := by
    unfold idsNodup
    decide
  have hpos : levelsPos c3Store := by
    unfold levelsPos
    decide
  have hpwf : parentWellFormed c3Store := by
    intro g hg pid hpid
    rcases List.mem_cons.mp hg with rfl | hg2
    · exact Option.noConfusion hpid
    · rw [List.mem_singleton] at hg2
      subst hg2
      have h2 : some (1 : Nat) = some pid := hpid
      obtain rfl := Option.some.inj h2
      exact ⟨c3Root, List.mem_cons_self _ _, rfl, rfl⟩
  have hmem : c3Child ∈ c3Store := List.mem_cons_of_mem _ (List.mem_singleton_self _)
  have hspec := updateParentProgressChain_spec c3Store 0 hnd hpos hpwf c3Child hmem
  refine ⟨hspec.1, ?_⟩
  have heli : eligibleChildren c3Store 1 = [c3Child] := by rfl
  have hmean : meanProgress [c3Child] = 100 := by
    norm_num [meanProgress, sumProgress, c3Child]
  have hjs : jsRound (100 * 100) = 10000 := by
    unfold jsRound
    rw [Int.floor_eq_iff]
    norm_num
  have hround : round2 100 = 100 := by
    unfold round2
    rw [hjs]
    norm_num
  have hcalc : calculateParentProgress c3Store 1 = 100 := by
    rw [calculateParentProgress_eq_round2_mean c3Store 1 (by decide), heli, hmean, hround]
  have hcond : |c3Root.progress - calculateParentProgress c3Store 1| ≤ 1 / 100 := by
    rw [hcalc]
    norm_num [c3Root]
  exact hspec.2.2.1 1 c3Root rfl rfl hcond 0
